import Mathlib

/-!
# Platform-ABI normalisation layer (`src/libc.c`)

A shallow embedding of the C shim that converts between the host runtime's
fixed 64-bit records and the platform's native structures, together with
theorems about its narrowing checks, its pass-through wrappers and its
constant exporters.

Machine integers are mathematical integers (`Int`); a conversion to a signed
type of `w` bits is written `narrow w`, a conversion to `uint64_t` is
`toU64`.  Native system calls are parameters of the embedding: each wrapper
receives the native call as a function, and records the arguments it hands
to it in a call log.
-/

namespace LibcShim

/-! ## Integer conversions -/

/-- Conversion of an integer to a signed two's-complement type of `w` bits:
the value is reduced modulo `2^w` into `[-2^(w-1), 2^(w-1))`.  This is what
the assignments `timeout.tv_sec = timeout64->tv_sec` and
`time_t timep_ = timep` compute. -/
def narrow (w : Nat) (x : Int) : Int :=
  (x + 2 ^ (w - 1)) % 2 ^ w - 2 ^ (w - 1)

/-- Conversion of a native signed value to `int64_t`, as in
`timeout64->tv_sec = timeout.tv_sec`. -/
def widen64 (x : Int) : Int := narrow 64 x

/-- Conversion of a native value to `uint64_t`, as in `*d_ino = dent->d_ino`. -/
def toU64 (x : Int) : Int := x % 2 ^ 64

/-- The values `uint64_t` can hold. -/
def isU64 (x : Int) : Prop := 0 ≤ x ∧ x < 2 ^ 64

instance (x : Int) : Decidable (isU64 x) := by
  unfold isU64
  infer_instance

/-- The values a signed type of `w` bits can hold. -/
def inRange (w : Nat) (x : Int) : Prop :=
  -(2 ^ (w - 1)) ≤ x ∧ x < 2 ^ (w - 1)

instance (w : Nat) (x : Int) : Decidable (inRange w x) := by
  unfold inRange
  infer_instance

/-- Widths of the native integer types the wrappers convert to and from. -/
structure ABI where
  /-- Width of `time_t`. -/
  time_t_bits : Nat
  /-- Width of `suseconds_t` (the type of `timeval.tv_usec`). -/
  suseconds_t_bits : Nat
  /-- Width of `long` (the type of `timespec.tv_nsec`, `ru_maxrss`, `ru_nsignals`). -/
  long_bits : Nat
  /-- Number of bytes of the `d_name` array of `struct dirent`. -/
  d_name_size : Nat
deriving Repr, DecidableEq

/-- A platform whose `time_t`, `suseconds_t` and `long` are all 32 bits wide. -/
def abi32 : ABI := ⟨32, 32, 32, 256⟩

/-- A platform whose `time_t`, `suseconds_t` and `long` are all 64 bits wide. -/
def abi64 : ABI := ⟨64, 64, 64, 256⟩

/-- A 64-bit platform whose `dirent` name array has four bytes. -/
def abi_tiny : ABI := ⟨64, 64, 64, 4⟩

/-! ## Running a wrapper -/

/-- The observable behaviour of one wrapper call: the native calls it made,
in order, and what it returned; `result = none` means the process was
terminated by `abort()`. -/
structure Run (κ α : Type) where
  calls : List κ
  result : Option α
deriving Repr, DecidableEq

/-- The macro `assert_or_die(x)`: `assert((x)); if (!(x)) abort();`.  With or
without `NDEBUG` the process is terminated when `x` is false and execution
continues when it is true; `none` is termination. -/
def assert_or_die (x : Bool) : Option Unit :=
  if x then some () else none

/-! ## select and pselect -/

/-- The layout of `struct timeval64`. -/
structure timeval64 where
  tv_sec : Int
  tv_usec : Int
deriving Repr, DecidableEq

/-- The native `struct timeval`. -/
structure timeval where
  tv_sec : Int
  tv_usec : Int
deriving Repr, DecidableEq

/-- The layout of `struct timespec64`. -/
structure timespec64 where
  tv_sec : Int
  tv_nsec : Int
deriving Repr, DecidableEq

/-- The native `struct timespec`. -/
structure timespec where
  tv_sec : Int
  tv_nsec : Int
deriving Repr, DecidableEq

/-- A descriptor set, as the list of descriptors in it. -/
abbrev fd_set := List Nat

/-- The arguments of one native `select` call; `none` is a null pointer. -/
structure SelectArgs where
  nfds : Int
  readfds : Option fd_set
  writefds : Option fd_set
  errorfds : Option fd_set
  timeout : Option timeval
deriving Repr, DecidableEq

/-- What a native `select` call leaves behind: its return value, the three
descriptor sets, and the contents of the native timeout structure (read only
when a timeout was passed). -/
structure SelectReply where
  result : Int
  readfds : Option fd_set
  writefds : Option fd_set
  errorfds : Option fd_set
  timeout : timeval
deriving Repr, DecidableEq

/-- What `C_select64` leaves behind: its return value, the descriptor sets,
and the wide timeout (`none` when the pointer was null). -/
structure Select64Result where
  ret : Int
  readfds : Option fd_set
  writefds : Option fd_set
  errorfds : Option fd_set
  timeout64 : Option timeval64
deriving Repr, DecidableEq

/-- The wrapper `C_select64`.  `select` is the native call. -/
def C_select64 (abi : ABI) (select : SelectArgs → SelectReply)
    (nfds : Int) (readfds writefds errorfds : Option fd_set)
    (timeout64 : Option timeval64) : Run SelectArgs Select64Result :=
  match timeout64 with
  | some t64 =>
    let tv_sec := narrow abi.time_t_bits t64.tv_sec
    let tv_usec := narrow abi.suseconds_t_bits t64.tv_usec
    match assert_or_die (decide (tv_sec = t64.tv_sec)) with
    | none => ⟨[], none⟩
    | some () =>
      match assert_or_die (decide (tv_usec = t64.tv_usec)) with
      | none => ⟨[], none⟩
      | some () =>
        let args : SelectArgs := ⟨nfds, readfds, writefds, errorfds, some ⟨tv_sec, tv_usec⟩⟩
        let reply := select args
        ⟨[args], some ⟨reply.result, reply.readfds, reply.writefds, reply.errorfds,
          some ⟨widen64 reply.timeout.tv_sec, widen64 reply.timeout.tv_usec⟩⟩⟩
  | none =>
    let args : SelectArgs := ⟨nfds, readfds, writefds, errorfds, none⟩
    let reply := select args
    ⟨[args], some ⟨reply.result, reply.readfds, reply.writefds, reply.errorfds, none⟩⟩

/-- A signal mask, as the list of blocked signal numbers. -/
abbrev sigset_t := List Nat

/-- The arguments of one native `pselect` call; `none` is a null pointer. -/
structure PselectArgs where
  nfds : Int
  readfds : Option fd_set
  writefds : Option fd_set
  errorfds : Option fd_set
  timeout : Option timespec
  sigmask : Option sigset_t
deriving Repr, DecidableEq

/-- What a native `pselect` call leaves behind: its return value and the
three descriptor sets (its timeout argument is `const`). -/
structure PselectReply where
  result : Int
  readfds : Option fd_set
  writefds : Option fd_set
  errorfds : Option fd_set
deriving Repr, DecidableEq

/-- The wrapper `C_pselect64`.  `pselect` is the native call. -/
def C_pselect64 (abi : ABI) (pselect : PselectArgs → PselectReply)
    (nfds : Int) (readfds writefds errorfds : Option fd_set)
    (timeout64 : Option timespec64) (sigmask : Option sigset_t) :
    Run PselectArgs PselectReply :=
  match timeout64 with
  | some t64 =>
    let tv_sec := narrow abi.time_t_bits t64.tv_sec
    let tv_nsec := narrow abi.long_bits t64.tv_nsec
    match assert_or_die (decide (tv_sec = t64.tv_sec)) with
    | none => ⟨[], none⟩
    | some () =>
      match assert_or_die (decide (tv_nsec = t64.tv_nsec)) with
      | none => ⟨[], none⟩
      | some () =>
        let args : PselectArgs :=
          ⟨nfds, readfds, writefds, errorfds, some ⟨tv_sec, tv_nsec⟩, sigmask⟩
        ⟨[args], some (pselect args)⟩
  | none =>
    let args : PselectArgs := ⟨nfds, readfds, writefds, errorfds, none, sigmask⟩
    ⟨[args], some (pselect args)⟩

/-! ## Local time and file times -/

/-- The fields of `struct tm`. -/
structure tm where
  tm_sec : Int
  tm_min : Int
  tm_hour : Int
  tm_mday : Int
  tm_mon : Int
  tm_year : Int
  tm_wday : Int
  tm_yday : Int
  tm_isdst : Int
deriving Repr, DecidableEq

/-- What a native `localtime_r` call leaves behind: whether the pointer it
returned is non-null, and the contents of the result record. -/
structure LocaltimeReply where
  nonnull : Bool
  result : tm
deriving Repr, DecidableEq

/-- What `C_localtime64_r` leaves behind: its return value and the result record. -/
structure Localtime64Result where
  ret : Bool
  result : tm
deriving Repr, DecidableEq

/-- The wrapper `C_localtime64_r`.  `localtime_r` is the platform conversion,
given the `time_t` it is pointed at and the record it may fill; the log holds
the timestamps handed to it. -/
def C_localtime64_r (abi : ABI) (localtime_r : Int → tm → LocaltimeReply)
    (timep : Int) (result : tm) : Run Int Localtime64Result :=
  let timep_ := narrow abi.time_t_bits timep
  let reply := localtime_r timep_ result
  ⟨[timep_], some ⟨reply.nonnull, reply.result⟩⟩

/-- The arguments of one native `futimens` call: the descriptor and the two
elements of the `times` array. -/
structure FutimensArgs where
  fd : Int
  times0 : timespec
  times1 : timespec
deriving Repr, DecidableEq

/-- The wrapper `C_futimens64`.  `futimens` is the native call and returns
its `int` result. -/
def C_futimens64 (abi : ABI) (futimens : FutimensArgs → Int)
    (fd : Int) (times0 times1 : timespec64) : Run FutimensArgs Bool :=
  let t0 : timespec :=
    ⟨narrow abi.time_t_bits times0.tv_sec, narrow abi.long_bits times0.tv_nsec⟩
  let t1 : timespec :=
    ⟨narrow abi.time_t_bits times1.tv_sec, narrow abi.long_bits times1.tv_nsec⟩
  let args : FutimensArgs := ⟨fd, t0, t1⟩
  ⟨[args], some (decide (futimens args = 0))⟩

/-! ## Resource usage and clocks -/

/-- The layout of `struct rusage64`. -/
structure rusage64 where
  ru_utime : timeval64
  ru_stime : timeval64
  ru_maxrss : Int
  ru_nsignals : Int
deriving Repr, DecidableEq

/-- The fields of the native `struct rusage` that the wrapper reads. -/
structure rusage where
  ru_utime : timeval
  ru_stime : timeval
  ru_maxrss : Int
  ru_nsignals : Int
deriving Repr, DecidableEq

/-- The fields of a native `struct rusage` hold values of their native types. -/
def rusage.WellTyped (abi : ABI) (r : rusage) : Prop :=
  inRange abi.time_t_bits r.ru_utime.tv_sec ∧ inRange abi.suseconds_t_bits r.ru_utime.tv_usec ∧
  inRange abi.time_t_bits r.ru_stime.tv_sec ∧ inRange abi.suseconds_t_bits r.ru_stime.tv_usec ∧
  inRange abi.long_bits r.ru_maxrss ∧ inRange abi.long_bits r.ru_nsignals

instance (abi : ABI) (r : rusage) : Decidable (rusage.WellTyped abi r) := by
  unfold rusage.WellTyped
  infer_instance

/-- The wrapper `C_getrusage64`.  `getrusage` is the native call: it returns
its `int` result and the contents of the local `tmp` after the call.  The
result is the wrapper's return value and the record `usage` points at. -/
def C_getrusage64 (getrusage : Int → Int × rusage) (resource : Int) : Int × rusage64 :=
  let (result, tmp) := getrusage resource
  (result,
   { ru_utime := ⟨widen64 tmp.ru_utime.tv_sec, widen64 tmp.ru_utime.tv_usec⟩
     ru_stime := ⟨widen64 tmp.ru_stime.tv_sec, widen64 tmp.ru_stime.tv_usec⟩
     ru_maxrss := widen64 tmp.ru_maxrss
     ru_nsignals := widen64 tmp.ru_nsignals })

/-- The wrapper `C_clock_gettime64`.  `clock_gettime` is the native call: it
returns its `int` result and the contents of the local `tp_` after the call.
`tp` is the caller's record before the call; the result is the wrapper's
return value and the caller's record after it. -/
def C_clock_gettime64 (clock_gettime : Int → Int × timespec) (clock_id : Int)
    (tp : timespec64) : Bool × timespec64 :=
  let (r, tp_) := clock_gettime clock_id
  if r = -1 then (false, tp)
  else (true, ⟨widen64 tp_.tv_sec, widen64 tp_.tv_nsec⟩)

/-! ## File status -/

/-- The fields of the native `struct stat` that the wrapper reads. -/
structure stat where
  st_dev : Int
  st_ino : Int
  st_mode : Int
deriving Repr, DecidableEq

/-- The three output locations of `C_fstatat64`. -/
structure StatOut where
  st_dev : Int
  st_ino : Int
  st_mode : Int
deriving Repr, DecidableEq

/-- The wrapper `C_fstatat64`.  `fstatat` is the native call: it returns its
`int` result and the contents of the local `buf` after the call.  `out` holds
the three outputs before the call; the result is the wrapper's return value
and the outputs after it.  `st_dev` and `st_ino` are converted to
`uint64_t`; `st_mode` keeps its type `mode_t`. -/
def C_fstatat64 (fstatat : Int → String → Int → Int × stat)
    (dirfd : Int) (file : String) (flag : Int) (out : StatOut) : Bool × StatOut :=
  let (r, buf) := fstatat dirfd file flag
  if r = -1 then (false, out)
  else (true, ⟨toU64 buf.st_dev, toU64 buf.st_ino, buf.st_mode⟩)

/-! ## Directory entries -/

/-- The fields of the native `struct dirent` that the wrapper reads.
`d_ino` is the inode field, which BSD-family systems name `d_fileno`; both
preprocessor branches of the wrapper read it.  `d_name` is the contents of
the name array, a byte per element. -/
structure dirent where
  d_ino : Int
  d_type : Nat
  d_name : List Nat
deriving Repr, DecidableEq

/-- The four output locations of `C_readdir64`; `d_name` is the array the
name pointer refers to. -/
structure DirentOut where
  d_name : List Nat
  d_name_len : Nat
  d_ino : Int
  d_type : Nat
deriving Repr, DecidableEq

/-- The size of one `char`, the element type of `d_name`. -/
def sizeof_char : Nat := 1

/-- The wrapper `C_readdir64`.  `readdir` is the native call on a handle of
type `DIR`: it returns the next entry (`none` is a null pointer) and the
handle afterwards.  `out` holds the four outputs before the call; the result
is the wrapper's return value, the outputs and the handle after it. -/
def C_readdir64 {DIR : Type} (abi : ABI) (readdir : DIR → Option dirent × DIR)
    (dirp : DIR) (out : DirentOut) : Bool × DirentOut × DIR :=
  match readdir dirp with
  | (none, dirp1) => (false, out, dirp1)
  | (some dent, dirp1) =>
    (true,
     { d_name := dent.d_name
       d_name_len := abi.d_name_size / sizeof_char
       d_ino := toU64 dent.d_ino
       d_type := dent.d_type },
     dirp1)

/-- A directory handle as the list of entries the native `readdir` still has
to return: a call hands out the first one and keeps the rest, and returns a
null pointer once the list is empty. -/
def readdir_list : List dirent → Option dirent × List dirent
  | [] => (none, [])
  | e :: es => (some e, es)

/-- The results of `n` successive calls of `C_readdir64` on one handle, the
caller reusing the same four output locations for every call. -/
def readdir_calls {DIR : Type} (abi : ABI) (readdir : DIR → Option dirent × DIR) :
    Nat → DIR → DirentOut → List (Bool × DirentOut)
  | 0, _, _ => []
  | n + 1, dirp, out =>
    match C_readdir64 abi readdir dirp out with
    | (ret, out1, dirp1) => (ret, out1) :: readdir_calls abi readdir n dirp1 out1

/-- The length of the NUL-terminated name held in a name array: the number
of bytes before the first zero byte. -/
def strlen (buf : List Nat) : Nat := (buf.takeWhile (fun c => c != 0)).length

/-! ## Constant exporters -/

/-- The preprocessor constants the exporters refer to. -/
inductive Const where
  | ST_LOCAL
  | _CS_PATH
  | MNT_LOCAL
  | _PC_CASE_SENSITIVE
  | RLIMIT_CORE
  | RLIMIT_DATA
  | RLIMIT_FSIZE
  | RLIMIT_NOFILE
  | RLIMIT_STACK
  | RLIMIT_CPU
  | RLIMIT_SBSIZE
  | RLIMIT_NICE
  | RLIMIT_SIGPENDING
  | RLIMIT_MEMLOCK
  | RLIMIT_RSS
  | RLIMIT_MSGQUEUE
  | RLIMIT_RTPRIO
  | RLIMIT_NPROC
  | RLIMIT_AS
  | RLIMIT_SWAP
  | RLIMIT_RTTIME
  | RLIMIT_KQUEUES
  | RLIMIT_NPTS
  | RLIMIT_NTHR
deriving Repr, DecidableEq

/-- The build platform: the value of each preprocessor constant its headers
define (`none` for a constant they leave undefined), and the string
`_PATH_BSHELL` of `<paths.h>`. -/
structure Platform where
  consts : Const → Option Int
  PATH_BSHELL : String

/-- The exporter `C_ST_LOCAL`: `#if defined ST_LOCAL`, `return ST_LOCAL;`, `#else`, `return 0;`. -/
def C_ST_LOCAL (p : Platform) : Int :=
  match p.consts Const.ST_LOCAL with
  | some v => v
  | none => 0

/-- The exporter `C_CS_PATH`: `#if defined _CS_PATH`, `return _CS_PATH;`, `#else`, `return -1;`. -/
def C_CS_PATH (p : Platform) : Int :=
  match p.consts Const._CS_PATH with
  | some v => v
  | none => -1

/-- The exporter `C_MNT_LOCAL`: `#if defined MNT_LOCAL`, `return MNT_LOCAL;`, `#else`, `return 0;`. -/
def C_MNT_LOCAL (p : Platform) : Int :=
  match p.consts Const.MNT_LOCAL with
  | some v => v
  | none => 0

/-- The exporter `C_PATH_BSHELL`: `return _PATH_BSHELL;`. -/
def C_PATH_BSHELL (p : Platform) : String := p.PATH_BSHELL

/-- The exporter `C_PC_CASE_SENSITIVE`: `#ifdef _PC_CASE_SENSITIVE`, `return _PC_CASE_SENSITIVE;`, `#else`, `return 0;`. -/
def C_PC_CASE_SENSITIVE (p : Platform) : Int :=
  match p.consts Const._PC_CASE_SENSITIVE with
  | some v => v
  | none => 0

/-- The exporter `C_RLIMIT_CORE`: `return RLIMIT_CORE;` with no guard, so the
file only compiles where the constant is defined (`none` otherwise). -/
def C_RLIMIT_CORE (p : Platform) : Option Int := p.consts Const.RLIMIT_CORE

/-- The exporter `C_RLIMIT_DATA`: `return RLIMIT_DATA;` with no guard, so the
file only compiles where the constant is defined (`none` otherwise). -/
def C_RLIMIT_DATA (p : Platform) : Option Int := p.consts Const.RLIMIT_DATA

/-- The exporter `C_RLIMIT_FSIZE`: `return RLIMIT_FSIZE;` with no guard, so the
file only compiles where the constant is defined (`none` otherwise). -/
def C_RLIMIT_FSIZE (p : Platform) : Option Int := p.consts Const.RLIMIT_FSIZE

/-- The exporter `C_RLIMIT_NOFILE`: `return RLIMIT_NOFILE;` with no guard, so the
file only compiles where the constant is defined (`none` otherwise). -/
def C_RLIMIT_NOFILE (p : Platform) : Option Int := p.consts Const.RLIMIT_NOFILE

/-- The exporter `C_RLIMIT_STACK`: `return RLIMIT_STACK;` with no guard, so the
file only compiles where the constant is defined (`none` otherwise). -/
def C_RLIMIT_STACK (p : Platform) : Option Int := p.consts Const.RLIMIT_STACK

/-- The exporter `C_RLIMIT_CPU`: `return RLIMIT_CPU;` with no guard, so the
file only compiles where the constant is defined (`none` otherwise). -/
def C_RLIMIT_CPU (p : Platform) : Option Int := p.consts Const.RLIMIT_CPU

/-- The exporter `C_RLIMIT_SBSIZE`: `#ifdef RLIMIT_SBSIZE`, `return RLIMIT_SBSIZE;`, `#else`, `return -1;`. -/
def C_RLIMIT_SBSIZE (p : Platform) : Int :=
  match p.consts Const.RLIMIT_SBSIZE with
  | some v => v
  | none => -1

/-- The exporter `C_RLIMIT_NICE`: `#ifdef RLIMIT_NICE`, `return RLIMIT_NICE;`, `#else`, `return -1;`. -/
def C_RLIMIT_NICE (p : Platform) : Int :=
  match p.consts Const.RLIMIT_NICE with
  | some v => v
  | none => -1

/-- The exporter `C_RLIMIT_SIGPENDING`: `#ifdef RLIMIT_SIGPENDING`, `return RLIMIT_SIGPENDING;`, `#else`, `return -1;`. -/
def C_RLIMIT_SIGPENDING (p : Platform) : Int :=
  match p.consts Const.RLIMIT_SIGPENDING with
  | some v => v
  | none => -1

/-- The exporter `C_RLIMIT_MEMLOCK`: `#ifdef RLIMIT_MEMLOCK`, `return RLIMIT_MEMLOCK;`, `#else`, `return -1;`. -/
def C_RLIMIT_MEMLOCK (p : Platform) : Int :=
  match p.consts Const.RLIMIT_MEMLOCK with
  | some v => v
  | none => -1

/-- The exporter `C_RLIMIT_RSS`: `#ifdef RLIMIT_RSS`, `return RLIMIT_RSS;`, `#else`, `return -1;`. -/
def C_RLIMIT_RSS (p : Platform) : Int :=
  match p.consts Const.RLIMIT_RSS with
  | some v => v
  | none => -1

/-- The exporter `C_RLIMIT_MSGQUEUE`: `#ifdef RLIMIT_MSGQUEUE`, `return RLIMIT_MSGQUEUE;`, `#else`, `return -1;`. -/
def C_RLIMIT_MSGQUEUE (p : Platform) : Int :=
  match p.consts Const.RLIMIT_MSGQUEUE with
  | some v => v
  | none => -1

/-- The exporter `C_RLIMIT_RTPRIO`: `#ifdef RLIMIT_RTPRIO`, `return RLIMIT_RTPRIO;`, `#else`, `return -1;`. -/
def C_RLIMIT_RTPRIO (p : Platform) : Int :=
  match p.consts Const.RLIMIT_RTPRIO with
  | some v => v
  | none => -1

/-- The exporter `C_RLIMIT_NPROC`: `#ifdef RLIMIT_NPROC`, `return RLIMIT_NPROC;`, `#else`, `return -1;`. -/
def C_RLIMIT_NPROC (p : Platform) : Int :=
  match p.consts Const.RLIMIT_NPROC with
  | some v => v
  | none => -1

/-- The exporter `C_RLIMIT_AS`: `#ifdef RLIMIT_AS`, `return RLIMIT_AS;`, `#else`, `return -1;`. -/
def C_RLIMIT_AS (p : Platform) : Int :=
  match p.consts Const.RLIMIT_AS with
  | some v => v
  | none => -1

/-- The exporter `C_RLIMIT_SWAP`: `#ifdef RLIMIT_SWAP`, `return RLIMIT_SWAP;`, `#else`, `return -1;`. -/
def C_RLIMIT_SWAP (p : Platform) : Int :=
  match p.consts Const.RLIMIT_SWAP with
  | some v => v
  | none => -1

/-- The exporter `C_RLIMIT_RTTIME`: `#ifdef RLIMIT_RTTIME`, `return RLIMIT_RTTIME;`, `#else`, `return -1;`. -/
def C_RLIMIT_RTTIME (p : Platform) : Int :=
  match p.consts Const.RLIMIT_RTTIME with
  | some v => v
  | none => -1

/-- The exporter `C_RLIMIT_KQUEUES`: `#ifdef RLIMIT_KQUEUES`, `return RLIMIT_KQUEUES;`, `#else`, `return -1;`. -/
def C_RLIMIT_KQUEUES (p : Platform) : Int :=
  match p.consts Const.RLIMIT_KQUEUES with
  | some v => v
  | none => -1

/-- The exporter `C_RLIMIT_NPTS`: `#ifdef RLIMIT_NPTS`, `return RLIMIT_NPTS;`, `#else`, `return -1;`. -/
def C_RLIMIT_NPTS (p : Platform) : Int :=
  match p.consts Const.RLIMIT_NPTS with
  | some v => v
  | none => -1

/-- The exporter `C_RLIMIT_NTHR`: `#ifdef RLIMIT_NTHR`, `return RLIMIT_NTHR;`, `#else`, `return -1;`. -/
def C_RLIMIT_NTHR (p : Platform) : Int :=
  match p.consts Const.RLIMIT_NTHR with
  | some v => v
  | none => -1

/-- The exporter of each constant; `none` where the exporter does not compile. -/
def exporter (p : Platform) : Const → Option Int
  | Const.ST_LOCAL => some <| C_ST_LOCAL p
  | Const._CS_PATH => some <| C_CS_PATH p
  | Const.MNT_LOCAL => some <| C_MNT_LOCAL p
  | Const._PC_CASE_SENSITIVE => some <| C_PC_CASE_SENSITIVE p
  | Const.RLIMIT_CORE => C_RLIMIT_CORE p
  | Const.RLIMIT_DATA => C_RLIMIT_DATA p
  | Const.RLIMIT_FSIZE => C_RLIMIT_FSIZE p
  | Const.RLIMIT_NOFILE => C_RLIMIT_NOFILE p
  | Const.RLIMIT_STACK => C_RLIMIT_STACK p
  | Const.RLIMIT_CPU => C_RLIMIT_CPU p
  | Const.RLIMIT_SBSIZE => some <| C_RLIMIT_SBSIZE p
  | Const.RLIMIT_NICE => some <| C_RLIMIT_NICE p
  | Const.RLIMIT_SIGPENDING => some <| C_RLIMIT_SIGPENDING p
  | Const.RLIMIT_MEMLOCK => some <| C_RLIMIT_MEMLOCK p
  | Const.RLIMIT_RSS => some <| C_RLIMIT_RSS p
  | Const.RLIMIT_MSGQUEUE => some <| C_RLIMIT_MSGQUEUE p
  | Const.RLIMIT_RTPRIO => some <| C_RLIMIT_RTPRIO p
  | Const.RLIMIT_NPROC => some <| C_RLIMIT_NPROC p
  | Const.RLIMIT_AS => some <| C_RLIMIT_AS p
  | Const.RLIMIT_SWAP => some <| C_RLIMIT_SWAP p
  | Const.RLIMIT_RTTIME => some <| C_RLIMIT_RTTIME p
  | Const.RLIMIT_KQUEUES => some <| C_RLIMIT_KQUEUES p
  | Const.RLIMIT_NPTS => some <| C_RLIMIT_NPTS p
  | Const.RLIMIT_NTHR => some <| C_RLIMIT_NTHR p

/-- The constants whose exporter is guarded by a preprocessor conditional. -/
def Const.guarded : Const → Bool
  | Const.RLIMIT_CORE => false
  | Const.RLIMIT_DATA => false
  | Const.RLIMIT_FSIZE => false
  | Const.RLIMIT_NOFILE => false
  | Const.RLIMIT_STACK => false
  | Const.RLIMIT_CPU => false
  | _ => true

/-- The constants used as a bit flag: the mount and statfs `local` flags. -/
def Const.isBitFlag : Const → Bool
  | Const.ST_LOCAL => true
  | Const.MNT_LOCAL => true
  | _ => false

/-- A platform that defines the six unconditional resource limits with the
values of the Linux headers and nothing else. -/
def linuxLike : Platform where
  consts
    | Const.RLIMIT_CPU => some 0
    | Const.RLIMIT_FSIZE => some 1
    | Const.RLIMIT_DATA => some 2
    | Const.RLIMIT_STACK => some 3
    | Const.RLIMIT_CORE => some 4
    | Const.RLIMIT_RSS => some 5
    | Const.RLIMIT_NPROC => some 6
    | Const.RLIMIT_NOFILE => some 7
    | _ => none
  PATH_BSHELL := "/bin/sh"

/-! ## Sample native calls

Concrete native calls on which the wrappers are run. -/

/-- A native `select` that times out at once: it returns `0`, empties the
descriptor sets it was given and leaves no remaining time. -/
def select_times_out (a : SelectArgs) : SelectReply :=
  ⟨0, a.readfds.map (fun _ => []), a.writefds.map (fun _ => []),
    a.errorfds.map (fun _ => []), ⟨0, 0⟩⟩

/-- A native `pselect` that times out at once. -/
def pselect_times_out (a : PselectArgs) : PselectReply :=
  ⟨0, a.readfds.map (fun _ => []), a.writefds.map (fun _ => []),
    a.errorfds.map (fun _ => [])⟩

/-- A platform conversion for a zone at UTC that fails on negative timestamps
and otherwise fills in the time of day and the day count. -/
def localtime_r_sample (t : Int) (r : tm) : LocaltimeReply :=
  if t < 0 then ⟨false, r⟩
  else ⟨true, { r with tm_sec := t % 60, tm_min := t / 60 % 60, tm_hour := t / 3600 % 24,
                       tm_yday := t / 86400 }⟩

/-- A native `futimens` that always succeeds. -/
def futimens_succeeds (_ : FutimensArgs) : Int := 0

/-- A native `getrusage` that succeeds for scope `0` only. -/
def getrusage_sample (resource : Int) : Int × rusage :=
  if resource = 0 then (0, ⟨⟨3, 250000⟩, ⟨1, 500⟩, 4096, 0⟩)
  else (-1, ⟨⟨0, 0⟩, ⟨0, 0⟩, 0, 0⟩)

/-- A native `clock_gettime` that knows clock `0` only. -/
def clock_gettime_sample (clock_id : Int) : Int × timespec :=
  if clock_id = 0 then (0, ⟨1700000000, 123456789⟩) else (-1, ⟨0, 0⟩)

/-- A native `fstatat` under which only the path `present` exists. -/
def fstatat_sample (_ : Int) (file : String) (_ : Int) : Int × stat :=
  if file = "present" then (0, ⟨2049, 131, 33188⟩) else (-1, ⟨0, 0, 0⟩)

/-- Two directory entries, `a` and `bc`, in a four-byte name array. -/
def two_entries : List dirent :=
  [⟨11, 8, [97, 0, 0, 0]⟩, ⟨12, 4, [98, 99, 0, 0]⟩]

/-- A native `readdir` that fails with a read error although an entry remains. -/
def readdir_fails (d : List dirent) : Option dirent × List dirent := (none, d)

/-! ## Facts about the conversions -/

theorem narrow_eq_self_iff (w : Nat) (x : Int) :
    narrow w x = x ↔ 0 ≤ x + 2 ^ (w - 1) ∧ x + 2 ^ (w - 1) < 2 ^ w := by
  unfold narrow
  have hpos : (0 : Int) < 2 ^ w := by positivity
  constructor
  · intro h
    have h1 : (x + 2 ^ (w - 1)) % 2 ^ w = x + 2 ^ (w - 1) := by linarith
    rw [← h1]
    exact ⟨Int.emod_nonneg _ (ne_of_gt hpos), Int.emod_lt_of_pos _ hpos⟩
  · rintro ⟨h0, h1⟩
    rw [Int.emod_eq_of_lt h0 h1]
    ring

theorem two_pow_pred_double (w : Nat) (hw : 0 < w) :
    (2 : Int) ^ w = 2 ^ (w - 1) + 2 ^ (w - 1) := by
  obtain ⟨k, rfl⟩ : ∃ k, w = k + 1 := ⟨w - 1, by omega⟩
  simp only [Nat.add_sub_cancel]
  ring

theorem narrow_eq_self_iff_inRange (w : Nat) (hw : 0 < w) (x : Int) :
    narrow w x = x ↔ inRange w x := by
  rw [narrow_eq_self_iff, two_pow_pred_double w hw]
  unfold inRange
  constructor
  · rintro ⟨h0, h1⟩
    exact ⟨by linarith, by linarith⟩
  · rintro ⟨h0, h1⟩
    exact ⟨by linarith, by linarith⟩

theorem inRange_mono {v w : Nat} (hv : 0 < v) (hvw : v ≤ w) {x : Int} (h : inRange v x) :
    inRange w x := by
  unfold inRange at *
  have hle : (2 : Int) ^ (v - 1) ≤ 2 ^ (w - 1) :=
    pow_le_pow_right₀ (by norm_num) (by omega)
  exact ⟨by linarith [h.1], by linarith [h.2]⟩

theorem widen64_of_inRange {w : Nat} (hw : 0 < w) (hw64 : w ≤ 64) {x : Int}
    (h : inRange w x) : widen64 x = x :=
  (narrow_eq_self_iff_inRange 64 (by norm_num) x).2 (inRange_mono hw hw64 h)

theorem narrow_inRange (w : Nat) (hw : 0 < w) (x : Int) : inRange w (narrow w x) := by
  unfold inRange narrow
  have hpos : (0 : Int) < 2 ^ w := by positivity
  have h0 := Int.emod_nonneg (x + 2 ^ (w - 1)) (ne_of_gt hpos)
  have h1 := Int.emod_lt_of_pos (x + 2 ^ (w - 1)) hpos
  have h2 := two_pow_pred_double w hw
  exact ⟨by linarith, by linarith⟩

theorem widen64_narrow (w : Nat) {x : Int} (hx : inRange 64 x) :
    widen64 (narrow w x) = narrow w x := by
  rcases Nat.eq_zero_or_pos w with h0 | hw
  · subst h0
    simp [narrow, widen64]
  · rcases Nat.le_total w 64 with hle | hge
    · exact widen64_of_inRange hw hle (narrow_inRange w hw x)
    · have hx' : narrow w x = x :=
        (narrow_eq_self_iff_inRange w hw x).2 (inRange_mono (by norm_num) hge hx)
      rw [hx']
      exact widen64_of_inRange (by norm_num) (le_refl 64) hx

theorem toU64_of_isU64 {x : Int} (h : isU64 x) : toU64 x = x :=
  Int.emod_eq_of_lt h.1 h.2

theorem assert_or_die_eq_none (b : Bool) : assert_or_die b = none ↔ b = false := by
  cases b <;> simp [assert_or_die]

/-! ## The narrowing checks of select and pselect -/

/-- C1: for every native width and every non-null wide timeout whose fields
are 64-bit values, `C_select64` and `C_pselect64` terminate the process, with
no native call made, exactly when narrowing the seconds field or the
sub-second field to its native type and widening it back gives a value
different from the original; when both fields survive the round trip the
wrapper does not terminate the process and makes one native call, whose
timeout has the fields of the wide timeout. -/
theorem C1_select64_pselect64_abort_iff_lossy (abi : ABI)
    (select : SelectArgs → SelectReply) (pselect : PselectArgs → PselectReply)
    (nfds : Int) (readfds writefds errorfds : Option fd_set) (sigmask : Option sigset_t)
    (t : timeval64) (ts : timespec64)
    (ht : inRange 64 t.tv_sec ∧ inRange 64 t.tv_usec)
    (hts : inRange 64 ts.tv_sec ∧ inRange 64 ts.tv_nsec) :
    (((C_select64 abi select nfds readfds writefds errorfds (some t)).result = none ↔
        (widen64 (narrow abi.time_t_bits t.tv_sec) ≠ t.tv_sec ∨
         widen64 (narrow abi.suseconds_t_bits t.tv_usec) ≠ t.tv_usec)) ∧
     ((C_select64 abi select nfds readfds writefds errorfds (some t)).result = none →
        (C_select64 abi select nfds readfds writefds errorfds (some t)).calls = []) ∧
     ((C_select64 abi select nfds readfds writefds errorfds (some t)).result ≠ none →
        (C_select64 abi select nfds readfds writefds errorfds (some t)).calls =
          [⟨nfds, readfds, writefds, errorfds, some ⟨t.tv_sec, t.tv_usec⟩⟩])) ∧
    (((C_pselect64 abi pselect nfds readfds writefds errorfds (some ts) sigmask).result = none ↔
        (widen64 (narrow abi.time_t_bits ts.tv_sec) ≠ ts.tv_sec ∨
         widen64 (narrow abi.long_bits ts.tv_nsec) ≠ ts.tv_nsec)) ∧
     ((C_pselect64 abi pselect nfds readfds writefds errorfds (some ts) sigmask).result = none →
        (C_pselect64 abi pselect nfds readfds writefds errorfds (some ts) sigmask).calls = []) ∧
     ((C_pselect64 abi pselect nfds readfds writefds errorfds (some ts) sigmask).result ≠ none →
        (C_pselect64 abi pselect nfds readfds writefds errorfds (some ts) sigmask).calls =
          [⟨nfds, readfds, writefds, errorfds, some ⟨ts.tv_sec, ts.tv_nsec⟩, sigmask⟩])) := by
  rw [widen64_narrow _ ht.1, widen64_narrow _ ht.2, widen64_narrow _ hts.1,
    widen64_narrow _ hts.2]
  constructor
  · by_cases h1 : narrow abi.time_t_bits t.tv_sec = t.tv_sec
    · by_cases h2 : narrow abi.suseconds_t_bits t.tv_usec = t.tv_usec
      · simp [C_select64, assert_or_die, h1, h2]
      · simp [C_select64, assert_or_die, h1, h2]
    · simp [C_select64, assert_or_die, h1]
  · by_cases h1 : narrow abi.time_t_bits ts.tv_sec = ts.tv_sec
    · by_cases h2 : narrow abi.long_bits ts.tv_nsec = ts.tv_nsec
      · simp [C_pselect64, assert_or_die, h1, h2]
      · simp [C_pselect64, assert_or_die, h1, h2]
    · simp [C_pselect64, assert_or_die, h1]

/-- C1 at a concrete input: on a platform with a 32-bit `time_t` a timeout of
`2^31` seconds terminates the process. -/
theorem C1_select64_pselect64_abort_iff_lossy_witness :
    (inRange 64 (2 ^ 31) ∧ inRange 64 0) ∧ (inRange 64 5 ∧ inRange 64 999) ∧
    (C_select64 abi32 select_times_out 1 (some [0]) none none (some ⟨2 ^ 31, 0⟩)).result = none ∧
    (C_pselect64 abi32 pselect_times_out 1 (some [0]) none none (some ⟨5, 999⟩) none).calls =
      [⟨1, some [0], none, none, some ⟨5, 999⟩, none⟩] :=
  have h1 : inRange 64 (2 ^ 31) ∧ inRange 64 0 := by decide
  have h2 : inRange 64 5 ∧ inRange 64 999 := by decide
  have h := C1_select64_pselect64_abort_iff_lossy abi32 select_times_out pselect_times_out 1
    (some [0]) none none none ⟨2 ^ 31, 0⟩ ⟨5, 999⟩ h1 h2
  ⟨h1, h2, h.1.1.2 (Or.inl (by decide)), h.2.2.2 (by decide)⟩

/-- C5: whenever `C_select64` returns, it has made exactly one native call
and returns that call's integer result.  With a non-null timeout the wide
timeout afterwards holds the widened seconds and microseconds the native call
left in the native timeout, which are those fields themselves when they are
values of their native types of at most 64 bits; with a null timeout the
native call receives a null timeout and there is no wide timeout afterwards. -/
theorem C5_select64_passes_result_and_timeout (abi : ABI)
    (select : SelectArgs → SelectReply)
    (nfds : Int) (readfds writefds errorfds : Option fd_set)
    (timeout64 : Option timeval64) (res : Select64Result)
    (h : (C_select64 abi select nfds readfds writefds errorfds timeout64).result = some res) :
    ∃ args, (C_select64 abi select nfds readfds writefds errorfds timeout64).calls = [args] ∧
      args.nfds = nfds ∧ args.readfds = readfds ∧ args.writefds = writefds ∧
      args.errorfds = errorfds ∧
      res.ret = (select args).result ∧
      (∀ t, timeout64 = some t →
        args.timeout = some ⟨t.tv_sec, t.tv_usec⟩ ∧
        res.timeout64 = some ⟨widen64 (select args).timeout.tv_sec,
                               widen64 (select args).timeout.tv_usec⟩ ∧
        (0 < abi.time_t_bits → abi.time_t_bits ≤ 64 →
         0 < abi.suseconds_t_bits → abi.suseconds_t_bits ≤ 64 →
         inRange abi.time_t_bits (select args).timeout.tv_sec →
         inRange abi.suseconds_t_bits (select args).timeout.tv_usec →
         res.timeout64 = some ⟨(select args).timeout.tv_sec, (select args).timeout.tv_usec⟩)) ∧
      (timeout64 = none → args.timeout = none ∧ res.timeout64 = none) := by
  cases timeout64 with
  | none =>
    simp only [C_select64, Option.some.injEq] at h
    subst h
    exact ⟨_, rfl, rfl, rfl, rfl, rfl, rfl, by simp, by simp⟩
  | some t =>
    by_cases h1 : narrow abi.time_t_bits t.tv_sec = t.tv_sec
    · by_cases h2 : narrow abi.suseconds_t_bits t.tv_usec = t.tv_usec
      · simp only [C_select64, assert_or_die, h1, h2, decide_True, if_true,
          Option.some.injEq] at h
        subst h
        refine ⟨_, by simp [C_select64, assert_or_die, h1, h2], rfl, rfl, rfl, rfl, rfl, ?_,
          by simp⟩
        intro t' ht'
        cases ht'
        refine ⟨rfl, rfl, ?_⟩
        intro a b c d e f
        rw [widen64_of_inRange a b e, widen64_of_inRange c d f]
      · simp [C_select64, assert_or_die, h1, h2] at h
    · simp [C_select64, assert_or_die, h1] at h

/-- C5 at a concrete input: a zero-length timeout on a native `select` that
times out returns `0`. -/
theorem C5_select64_passes_result_and_timeout_witness :
    (C_select64 abi64 select_times_out 0 none none none (some ⟨0, 0⟩)).result =
      some ⟨0, none, none, none, some ⟨0, 0⟩⟩ ∧
    ∃ args, (C_select64 abi64 select_times_out 0 none none none (some ⟨0, 0⟩)).calls = [args] ∧
      (0 : Int) = (select_times_out args).result :=
  have h0 : (C_select64 abi64 select_times_out 0 none none none (some ⟨0, 0⟩)).result =
      some ⟨0, none, none, none, some ⟨0, 0⟩⟩ := by decide
  ⟨h0, (C5_select64_passes_result_and_timeout abi64 select_times_out 0 none none none
    (some ⟨0, 0⟩) ⟨0, none, none, none, some ⟨0, 0⟩⟩ h0).imp
    (fun _ h => ⟨h.1, h.2.2.2.2.2.1⟩)⟩

/-! ## Local time and file times -/

/-- C4: for every 64-bit epoch-seconds value within the range of the native
`time_t`, `C_localtime64_r` makes one call of the platform conversion, for
exactly that instant, returns true exactly when that call returns a non-null
pointer, and leaves in the result record what that call left there. -/
theorem C4_localtime64_r_in_range (abi : ABI) (localtime_r : Int → tm → LocaltimeReply)
    (timep : Int) (result : tm)
    (hw : 0 < abi.time_t_bits) (hr : inRange abi.time_t_bits timep) :
    (C_localtime64_r abi localtime_r timep result).calls = [timep] ∧
    ∃ res, (C_localtime64_r abi localtime_r timep result).result = some res ∧
      (res.ret = true ↔ (localtime_r timep result).nonnull = true) ∧
      res.result = (localtime_r timep result).result := by
  have h : narrow abi.time_t_bits timep = timep :=
    (narrow_eq_self_iff_inRange _ hw timep).2 hr
  simp [C_localtime64_r, h]

/-- C4 at a concrete input: the last second a 32-bit `time_t` can hold. -/
theorem C4_localtime64_r_in_range_witness :
    (0 < abi32.time_t_bits ∧ inRange abi32.time_t_bits (2 ^ 31 - 1)) ∧
    (C_localtime64_r abi32 localtime_r_sample (2 ^ 31 - 1) ⟨0, 0, 0, 0, 0, 0, 0, 0, 0⟩).calls =
      [2 ^ 31 - 1] :=
  ⟨by decide,
   (C4_localtime64_r_in_range abi32 localtime_r_sample (2 ^ 31 - 1) ⟨0, 0, 0, 0, 0, 0, 0, 0, 0⟩
     (by decide) (by decide)).1⟩

/-- C3: on a platform with a 32-bit `time_t`, `C_localtime64_r` given the
timestamp `2^31`, which that `time_t` cannot hold, does not fail: it returns
normally, having handed the platform conversion the timestamp `-2^31`. -/
theorem C3_localtime64_r_truncates_silently (localtime_r : Int → tm → LocaltimeReply)
    (result : tm) :
    ¬ inRange abi32.time_t_bits (2 ^ 31) ∧
    (C_localtime64_r abi32 localtime_r (2 ^ 31) result).calls = [-(2 ^ 31)] ∧
    (C_localtime64_r abi32 localtime_r (2 ^ 31) result).result =
      some ⟨(localtime_r (-(2 ^ 31)) result).nonnull, (localtime_r (-(2 ^ 31)) result).result⟩ := by
  have h : narrow abi32.time_t_bits (2 ^ 31) = -(2 ^ 31) := by decide
  refine ⟨by decide, ?_, ?_⟩ <;> simp only [C_localtime64_r, h]

/-- C2: on a platform with a 32-bit `time_t`, `C_futimens64` given an access
time of `2^31` seconds, which that `time_t` cannot hold, does not terminate
the process: it calls the native `futimens` with an access time of `-2^31`
seconds and returns whether that call returned `0`. -/
theorem C2_futimens64_truncates_silently (futimens : FutimensArgs → Int) (fd : Int) :
    ¬ inRange abi32.time_t_bits (2 ^ 31) ∧
    (C_futimens64 abi32 futimens fd ⟨2 ^ 31, 0⟩ ⟨0, 0⟩).calls =
      [⟨fd, ⟨-(2 ^ 31), 0⟩, ⟨0, 0⟩⟩] ∧
    (C_futimens64 abi32 futimens fd ⟨2 ^ 31, 0⟩ ⟨0, 0⟩).result =
      some (decide (futimens ⟨fd, ⟨-(2 ^ 31), 0⟩, ⟨0, 0⟩⟩ = 0)) := by
  have h : narrow abi32.time_t_bits (2 ^ 31) = -(2 ^ 31) := by decide
  have h0 : narrow abi32.time_t_bits 0 = 0 := by decide
  have h1 : narrow abi32.long_bits 0 = 0 := by decide
  refine ⟨by decide, ?_, ?_⟩ <;> simp only [C_futimens64, h, h0, h1]

/-! ## Resource usage and clocks -/

/-- C6: the wide clock read and the wide resource-usage query lose no
precision.  For every native width of at most 64 bits and every value `x` of
that native type, narrowing the widened `x` gives `x` back.  Every field
`C_clock_gettime64` writes when the native call does not fail, and every
field `C_getrusage64` writes, is the widened native field, which is the
native field itself when the native record holds values of its native types;
and `C_getrusage64` returns the native call's integer result. -/
theorem C6_widening_is_lossless (abi : ABI)
    (clock_gettime : Int → Int × timespec) (clock_id : Int) (tp : timespec64)
    (getrusage : Int → Int × rusage) (resource : Int) :
    (∀ w x, 0 < w → w ≤ 64 → inRange w x → narrow w (widen64 x) = x) ∧
    ((clock_gettime clock_id).1 ≠ -1 →
      C_clock_gettime64 clock_gettime clock_id tp =
        (true, ⟨widen64 (clock_gettime clock_id).2.tv_sec,
                widen64 (clock_gettime clock_id).2.tv_nsec⟩) ∧
      (0 < abi.time_t_bits → abi.time_t_bits ≤ 64 → 0 < abi.long_bits → abi.long_bits ≤ 64 →
       inRange abi.time_t_bits (clock_gettime clock_id).2.tv_sec →
       inRange abi.long_bits (clock_gettime clock_id).2.tv_nsec →
       C_clock_gettime64 clock_gettime clock_id tp =
        (true, ⟨(clock_gettime clock_id).2.tv_sec, (clock_gettime clock_id).2.tv_nsec⟩))) ∧
    (C_getrusage64 getrusage resource).1 = (getrusage resource).1 ∧
    (C_getrusage64 getrusage resource).2 =
      { ru_utime := ⟨widen64 (getrusage resource).2.ru_utime.tv_sec,
                     widen64 (getrusage resource).2.ru_utime.tv_usec⟩
        ru_stime := ⟨widen64 (getrusage resource).2.ru_stime.tv_sec,
                     widen64 (getrusage resource).2.ru_stime.tv_usec⟩
        ru_maxrss := widen64 (getrusage resource).2.ru_maxrss
        ru_nsignals := widen64 (getrusage resource).2.ru_nsignals } ∧
    (0 < abi.time_t_bits → abi.time_t_bits ≤ 64 →
     0 < abi.suseconds_t_bits → abi.suseconds_t_bits ≤ 64 →
     0 < abi.long_bits → abi.long_bits ≤ 64 →
     (getrusage resource).2.WellTyped abi →
     (C_getrusage64 getrusage resource).2 =
      { ru_utime := ⟨(getrusage resource).2.ru_utime.tv_sec,
                     (getrusage resource).2.ru_utime.tv_usec⟩
        ru_stime := ⟨(getrusage resource).2.ru_stime.tv_sec,
                     (getrusage resource).2.ru_stime.tv_usec⟩
        ru_maxrss := (getrusage resource).2.ru_maxrss
        ru_nsignals := (getrusage resource).2.ru_nsignals }) := by
  refine ⟨?_, ?_, rfl, rfl, ?_⟩
  · intro w x hw hle hx
    rw [widen64_of_inRange hw hle hx]
    exact (narrow_eq_self_iff_inRange w hw x).2 hx
  · intro hr
    have h : C_clock_gettime64 clock_gettime clock_id tp =
        (true, ⟨widen64 (clock_gettime clock_id).2.tv_sec,
                widen64 (clock_gettime clock_id).2.tv_nsec⟩) := by
      simp only [C_clock_gettime64]
      rw [if_neg hr]
    refine ⟨h, ?_⟩
    intro a b c d e f
    rw [h, widen64_of_inRange a b e, widen64_of_inRange c d f]
  · intro a b c d e f hwt
    obtain ⟨h1, h2, h3, h4, h5, h6⟩ := hwt
    simp only [C_getrusage64]
    rw [widen64_of_inRange a b h1, widen64_of_inRange c d h2, widen64_of_inRange a b h3,
      widen64_of_inRange c d h4, widen64_of_inRange e f h5, widen64_of_inRange e f h6]

/-- C6 at a concrete input: a 32-bit platform reading clock `0` and the
resource usage of scope `0`. -/
theorem C6_widening_is_lossless_witness :
    narrow 32 (widen64 (-5)) = -5 ∧
    C_clock_gettime64 clock_gettime_sample 0 ⟨0, 0⟩ = (true, ⟨1700000000, 123456789⟩) ∧
    (C_getrusage64 getrusage_sample 0).2 = ⟨⟨3, 250000⟩, ⟨1, 500⟩, 4096, 0⟩ :=
  have h := C6_widening_is_lossless abi32 clock_gettime_sample 0 ⟨0, 0⟩ getrusage_sample 0
  ⟨h.1 32 (-5) (by decide) (by decide) (by decide),
   (h.2.1 (by decide)).2 (by decide) (by decide) (by decide) (by decide) (by decide)
     (by decide),
   h.2.2.2.2 (by decide) (by decide) (by decide) (by decide) (by decide) (by decide)
     (by decide)⟩

/-! ## File status -/

/-- C7: for every directory descriptor, path and flag word, `C_fstatat64`
returns false exactly when the native `fstatat` returns `-1`, and then leaves
its three outputs as they were; otherwise it returns true and the outputs are
the native record's device id and inode converted to `uint64_t`, which are the
native values themselves when those are unsigned 64-bit values, and the
native record's mode. -/
theorem C7_fstatat64_fails_iff_native_fails (fstatat : Int → String → Int → Int × stat)
    (dirfd : Int) (file : String) (flag : Int) (out : StatOut) :
    ((C_fstatat64 fstatat dirfd file flag out).1 = false ↔ (fstatat dirfd file flag).1 = -1) ∧
    ((fstatat dirfd file flag).1 = -1 → (C_fstatat64 fstatat dirfd file flag out).2 = out) ∧
    ((fstatat dirfd file flag).1 ≠ -1 →
      (C_fstatat64 fstatat dirfd file flag out).1 = true ∧
      (C_fstatat64 fstatat dirfd file flag out).2 =
        ⟨toU64 (fstatat dirfd file flag).2.st_dev, toU64 (fstatat dirfd file flag).2.st_ino,
         (fstatat dirfd file flag).2.st_mode⟩ ∧
      (isU64 (fstatat dirfd file flag).2.st_dev → isU64 (fstatat dirfd file flag).2.st_ino →
        (C_fstatat64 fstatat dirfd file flag out).2 =
          ⟨(fstatat dirfd file flag).2.st_dev, (fstatat dirfd file flag).2.st_ino,
           (fstatat dirfd file flag).2.st_mode⟩)) := by
  by_cases h : (fstatat dirfd file flag).1 = -1
  · simp [C_fstatat64, h]
  · refine ⟨by simp [C_fstatat64, h], fun h' => absurd h' h, fun _ => ?_⟩
    refine ⟨by simp [C_fstatat64, h], by simp [C_fstatat64, h], ?_⟩
    intro hd hi
    simp [C_fstatat64, h, toU64_of_isU64 hd, toU64_of_isU64 hi]

/-- C7 at concrete inputs: a missing path leaves the outputs alone, a present
one fills them. -/
theorem C7_fstatat64_fails_iff_native_fails_witness :
    (C_fstatat64 fstatat_sample 3 "missing" 0 ⟨7, 8, 9⟩).2 = ⟨7, 8, 9⟩ ∧
    (C_fstatat64 fstatat_sample 3 "present" 0 ⟨7, 8, 9⟩).2 = ⟨2049, 131, 33188⟩ :=
  ⟨(C7_fstatat64_fails_iff_native_fails fstatat_sample 3 "missing" 0 ⟨7, 8, 9⟩).2.1
     (by decide),
   ((C7_fstatat64_fails_iff_native_fails fstatat_sample 3 "present" 0 ⟨7, 8, 9⟩).2.2
     (by decide)).2.2 (by decide) (by decide)⟩

/-! ## Directory entries -/

theorem strlen_lt_of_mem_zero (buf : List Nat) (h : 0 ∈ buf) : strlen buf < buf.length := by
  induction buf with
  | nil => simp at h
  | cons c cs ih =>
    by_cases hc : c = 0
    · subst hc
      simp [strlen, List.takeWhile]
    · have hmem : 0 ∈ cs := by
        rcases List.mem_cons.1 h with h0 | h0
        · exact absurd h0.symm hc
        · exact h0
      have hlt := ih hmem
      have hb : (c != 0) = true := by simp [hc]
      simp only [strlen] at hlt ⊢
      rw [List.takeWhile_cons, hb]
      simp only [if_true, List.length_cons]
      omega

theorem readdir_calls_list (abi : ABI) (es : List dirent) (out : DirentOut) :
    readdir_calls abi readdir_list (es.length + 1) es out =
      es.map (fun e => (true, (⟨e.d_name, abi.d_name_size / sizeof_char, toU64 e.d_ino,
        e.d_type⟩ : DirentOut))) ++
      [(false, es.foldl (fun _ e => (⟨e.d_name, abi.d_name_size / sizeof_char, toU64 e.d_ino,
        e.d_type⟩ : DirentOut)) out)] := by
  induction es generalizing out with
  | nil => simp [readdir_calls, C_readdir64, readdir_list]
  | cons e es ih =>
    simp only [List.length_cons, List.map_cons, List.foldl_cons, List.cons_append]
    rw [readdir_calls]
    simp only [C_readdir64, readdir_list]
    rw [ih]

/-- C8: `C_readdir64` returns false exactly when the native `readdir` returns
a null pointer, whatever the reason, and then leaves its four outputs as they
were.  With the handle the list of the `n` entries the native `readdir` still
has to return, `n + 1` successive calls give `n` results `true`, each with the
name array, inode (converted to `uint64_t`, so the inode itself when it is an
unsigned 64-bit value) and type byte of the corresponding entry in order,
followed by one result `false` that leaves the outputs of the call before it. -/
theorem C8_readdir64_exhausts_after_last_entry (abi : ABI) :
    (∀ (DIR : Type) (readdir : DIR → Option dirent × DIR) (dirp : DIR) (out : DirentOut),
      ((C_readdir64 abi readdir dirp out).1 = false ↔ (readdir dirp).1 = none) ∧
      ((readdir dirp).1 = none → (C_readdir64 abi readdir dirp out).2.1 = out)) ∧
    (∀ (es : List dirent) (out : DirentOut),
      readdir_calls abi readdir_list (es.length + 1) es out =
        es.map (fun e => (true, (⟨e.d_name, abi.d_name_size / sizeof_char, toU64 e.d_ino,
          e.d_type⟩ : DirentOut))) ++
        [(false, es.foldl (fun _ e => (⟨e.d_name, abi.d_name_size / sizeof_char,
          toU64 e.d_ino, e.d_type⟩ : DirentOut)) out)] ∧
      (readdir_calls abi readdir_list (es.length + 1) es out).map Prod.fst =
        List.replicate es.length true ++ [false] ∧
      ((∀ e ∈ es, isU64 e.d_ino) →
        ((readdir_calls abi readdir_list (es.length + 1) es out).take es.length).map
          (fun r => (r.1, r.2.d_ino, r.2.d_type)) =
        es.map (fun e => (true, e.d_ino, e.d_type)))) := by
  constructor
  · intro DIR readdir dirp out
    rcases h : readdir dirp with ⟨_ | dent, dirp1⟩ <;> simp [C_readdir64, h]
  · intro es out
    refine ⟨readdir_calls_list abi es out, ?_, ?_⟩
    · rw [readdir_calls_list]
      simp [List.map_append, List.map_map, Function.comp_def, List.map_const']
    · intro hu
      rw [readdir_calls_list, List.take_left' (by simp), List.map_map]
      apply List.map_congr_left
      intro e he
      simp [toU64_of_isU64 (hu e he)]

/-- C8 at a concrete input: a directory of two entries gives two successful
reads and then a failure. -/
theorem C8_readdir64_exhausts_after_last_entry_witness :
    two_entries.all (fun e => decide (isU64 e.d_ino)) = true ∧
    ((readdir_calls abi_tiny readdir_list 3 two_entries ⟨[], 0, 0, 0⟩).take 2).map
        (fun r => (r.1, r.2.d_ino, r.2.d_type)) = [(true, 11, 8), (true, 12, 4)] ∧
    (C_readdir64 abi_tiny readdir_fails two_entries ⟨[], 0, 0, 0⟩).2.1 = ⟨[], 0, 0, 0⟩ :=
  have h : ∀ e ∈ two_entries, isU64 e.d_ino := by decide
  ⟨by decide,
   ((C8_readdir64_exhausts_after_last_entry abi_tiny).2 two_entries ⟨[], 0, 0, 0⟩).2.2 h,
   ((C8_readdir64_exhausts_after_last_entry abi_tiny).1 _ readdir_fails two_entries
     ⟨[], 0, 0, 0⟩).2 rfl⟩

/-- C10: on every successful `C_readdir64` call the reported name length is
the size of the native name array divided by the size of one `char`, that is
the capacity of the array: it does not depend on the entry.  For an entry
whose NUL-terminated name is shorter than the array, in particular whenever
the array has that capacity and holds a NUL, the reported length is strictly
greater than the length of the name. -/
theorem C10_readdir64_name_len_is_capacity (abi : ABI) (DIR : Type)
    (readdir : DIR → Option dirent × DIR) (dirp : DIR) (out : DirentOut)
    (h : (C_readdir64 abi readdir dirp out).1 = true) :
    (C_readdir64 abi readdir dirp out).2.1.d_name_len = abi.d_name_size / sizeof_char ∧
    (C_readdir64 abi readdir dirp out).2.1.d_name_len = abi.d_name_size ∧
    ∃ e, (readdir dirp).1 = some e ∧
      (C_readdir64 abi readdir dirp out).2.1.d_name = e.d_name ∧
      (strlen e.d_name < abi.d_name_size →
        strlen e.d_name < (C_readdir64 abi readdir dirp out).2.1.d_name_len) ∧
      (e.d_name.length = abi.d_name_size → 0 ∈ e.d_name →
        strlen e.d_name < (C_readdir64 abi readdir dirp out).2.1.d_name_len) := by
  rcases hr : readdir dirp with ⟨_ | dent, dirp1⟩
  · simp [C_readdir64, hr] at h
  · refine ⟨by simp [C_readdir64, hr], by simp [C_readdir64, hr, sizeof_char], dent, rfl, ?_⟩
    refine ⟨by simp [C_readdir64, hr], ?_, ?_⟩
    · intro hlt
      simpa [C_readdir64, hr, sizeof_char] using hlt
    · intro hlen h0
      have := strlen_lt_of_mem_zero dent.d_name h0
      rw [hlen] at this
      simpa [C_readdir64, hr, sizeof_char] using this

/-- C10 at a concrete input: the one-letter name `a` in a four-byte array is
reported with length four. -/
theorem C10_readdir64_name_len_is_capacity_witness :
    (C_readdir64 abi_tiny readdir_list two_entries ⟨[], 0, 0, 0⟩).1 = true ∧
    (C_readdir64 abi_tiny readdir_list two_entries ⟨[], 0, 0, 0⟩).2.1.d_name_len = 4 ∧
    strlen [97, 0, 0, 0] = 1 :=
  ⟨by decide,
   (C10_readdir64_name_len_is_capacity abi_tiny _ readdir_list two_entries ⟨[], 0, 0, 0⟩
     (by decide)).2.1,
   by decide⟩

/-! ## Constant exporters -/

/-- C9 as stated fails: on a platform that leaves `_PC_CASE_SENSITIVE`
undefined, which is not one of the two bit flags, `C_PC_CASE_SENSITIVE`
returns `0`, not `-1`. -/
theorem C9_pc_case_sensitive_sentinel_is_zero :
    linuxLike.consts ._PC_CASE_SENSITIVE = none ∧
    Const.isBitFlag ._PC_CASE_SENSITIVE = false ∧
    C_PC_CASE_SENSITIVE linuxLike = 0 ∧
    C_PC_CASE_SENSITIVE linuxLike ≠ -1 := by
  decide

/-- C9, amended: every constant exporter returns the platform's value when
the constant is defined; when it is undefined, a guarded exporter returns `0`
for the bit flags `ST_LOCAL` and `MNT_LOCAL` and for the pathconf key
`_PC_CASE_SENSITIVE`, and `-1` otherwise, that is for the confstr key
`_CS_PATH` and every platform-optional `RLIMIT_*` identifier. -/
theorem C9_exporter_value_or_sentinel (p : Platform) (c : Const) :
    (∀ v, p.consts c = some v → exporter p c = some v) ∧
    (p.consts c = none → c.guarded = true →
      exporter p c =
        some (if c.isBitFlag = true ∨ c = Const._PC_CASE_SENSITIVE then 0 else -1)) := by
  cases c <;> refine ⟨fun v hv => ?_, fun hn hg => ?_⟩ <;>
    simp_all [exporter, Const.guarded, Const.isBitFlag,
    C_ST_LOCAL, C_CS_PATH, C_MNT_LOCAL, C_PC_CASE_SENSITIVE, C_RLIMIT_CORE, C_RLIMIT_DATA,
    C_RLIMIT_FSIZE, C_RLIMIT_NOFILE, C_RLIMIT_STACK, C_RLIMIT_CPU, C_RLIMIT_SBSIZE,
    C_RLIMIT_NICE, C_RLIMIT_SIGPENDING, C_RLIMIT_MEMLOCK, C_RLIMIT_RSS, C_RLIMIT_MSGQUEUE,
    C_RLIMIT_RTPRIO, C_RLIMIT_NPROC, C_RLIMIT_AS, C_RLIMIT_SWAP, C_RLIMIT_RTTIME,
    C_RLIMIT_KQUEUES, C_RLIMIT_NPTS, C_RLIMIT_NTHR]

/-- C9, amended, at concrete inputs: a platform with the Linux resource
limits and no optional constant but `RLIMIT_RSS` and `RLIMIT_NPROC`. -/
theorem C9_exporter_value_or_sentinel_witness :
    exporter linuxLike .RLIMIT_NOFILE = some 7 ∧
    exporter linuxLike .RLIMIT_RSS = some 5 ∧
    exporter linuxLike ._CS_PATH = some (-1) ∧
    exporter linuxLike .RLIMIT_SBSIZE = some (-1) ∧
    exporter linuxLike .MNT_LOCAL = some 0 ∧
    exporter linuxLike ._PC_CASE_SENSITIVE = some 0 :=
  ⟨(C9_exporter_value_or_sentinel linuxLike .RLIMIT_NOFILE).1 7 rfl,
   (C9_exporter_value_or_sentinel linuxLike .RLIMIT_RSS).1 5 rfl,
   (C9_exporter_value_or_sentinel linuxLike ._CS_PATH).2 rfl rfl,
   (C9_exporter_value_or_sentinel linuxLike .RLIMIT_SBSIZE).2 rfl rfl,
   (C9_exporter_value_or_sentinel linuxLike .MNT_LOCAL).2 rfl rfl,
   (C9_exporter_value_or_sentinel linuxLike ._PC_CASE_SENSITIVE).2 rfl rfl⟩

end LibcShim
